import Mathlib

/-!
Verification of the jobsabroad frontend view logic: the multi-step
application wizard (MultiStepForm.tsx), the sites directory view
(SitesPage.tsx), the contact form (ContactPage.tsx) and the dashboard
view. Each handler is embedded as a pure Lean function over explicit
state; network responses are passed in as values.
-/

namespace JobsAbroad

/-- A job site record, as in the JobSite interfaces of the sites and
dashboard views. -/
structure JobSite where
  id : Nat
  country : String
  site_name : String
  site_url : String
deriving DecidableEq

/-! ### Multi-step application wizard (MultiStepForm.tsx) -/

/-- The ApplicationData form state. The optional password field is kept as
a string; the JS undefined case has the same falsy behaviour as the empty
string everywhere the code reads it. -/
structure ApplicationData where
  first_name : String
  last_name : String
  username : String
  email : String
  phone_number : String
  password : String
  age : String
  country : String
  desiredJob : String
  desiredStartDate : String
deriving DecidableEq

/-- initialData: every field starts empty. -/
def initialData : ApplicationData :=
  { first_name := "", last_name := "", username := "", email := "",
    phone_number := "", password := "", age := "", country := "",
    desiredJob := "", desiredStartDate := "" }

/-- The wizard has two steps (const total = 2). -/
def total : Nat := 2

/-- next: setStep(s => Math.min(total, s + 1)). -/
def next (s : Nat) : Nat := min total (s + 1)

/-- back: setStep(s => Math.max(1, s - 1)). -/
def back (s : Nat) : Nat := max 1 (s - 1)

/-- validStep: step 1 requires the identity and credential fields truthy
and a password of length at least 8; step 2 requires country, desired job
and start date truthy; any other step is invalid. A JS string is truthy
exactly when it is non-empty. -/
def validStep (step : Nat) (d : ApplicationData) : Bool :=
  if step = 1 then
    d.first_name != "" && d.last_name != "" && d.username != "" &&
    d.email != "" && d.password != "" && decide (8 ≤ d.password.length) &&
    d.phone_number != "" && d.age != ""
  else if step = 2 then
    d.country != "" && d.desiredJob != "" && d.desiredStartDate != ""
  else false

/-- The back button disabled prop: step === 1 || isLoading. -/
def backDisabled (step : Nat) (isLoading : Bool) : Bool :=
  (step == 1) || isLoading

/-- The next button disabled prop: !validStep() || isLoading. -/
def nextDisabled (step : Nat) (d : ApplicationData) (isLoading : Bool) : Bool :=
  !(validStep step d) || isLoading

/-- User interactions with the wizard while no submission is in flight:
pressing next, pressing back, or editing the form (modelled as replacing
the data record, which covers every merge of a patch). -/
inductive WizardEvent where
  | nextE
  | backE
  | updateE (d : ApplicationData)
deriving DecidableEq

/-- The wizard view state relevant to step navigation. -/
structure WizardState where
  step : Nat
  data : ApplicationData
deriving DecidableEq

/-- Initial state: useState(initialData), useState(1). -/
def initWizard : WizardState := { step := 1, data := initialData }

/-- One interaction. The next button is rendered only when step < total
and is disabled unless validStep holds, so the event is a no-op otherwise;
the back button is disabled at step 1. -/
def applyEvent (s : WizardState) : WizardEvent → WizardState
  | WizardEvent.nextE =>
      if s.step < total ∧ validStep s.step s.data = true then
        { s with step := next s.step }
      else s
  | WizardEvent.backE =>
      if 1 < s.step then { s with step := back s.step } else s
  | WizardEvent.updateE d => { s with data := d }

/-- Running a sequence of interactions. -/
def runEvents (s : WizardState) : List WizardEvent → WizardState
  | [] => s
  | e :: es => runEvents (applyEvent s e) es

/-- The step-1 completeness condition as the spec words it. -/
def step1Complete (d : ApplicationData) : Prop :=
  d.first_name ≠ "" ∧ d.last_name ≠ "" ∧ d.username ≠ "" ∧ d.email ≠ "" ∧
  d.phone_number ≠ "" ∧ d.age ≠ "" ∧ 8 ≤ d.password.length

lemma validStep_one_iff (d : ApplicationData) :
    validStep 1 d = true ↔ step1Complete d := by
  have hpw : 8 ≤ d.password.length → d.password ≠ "" := by
    intro h he
    rw [he] at h
    exact absurd h (by decide)
  simp only [validStep, if_pos rfl, if_true, Bool.and_eq_true, bne_iff_ne,
    decide_eq_true_eq, step1Complete, eq_self_iff_true]
  tauto

def stepInv (s : WizardState) : Prop := 1 ≤ s.step ∧ s.step ≤ 2

lemma applyEvent_stepInv (s : WizardState) (e : WizardEvent) (h : stepInv s) :
    stepInv (applyEvent s e) := by
  obtain ⟨h1, h2⟩ := h
  cases e with
  | nextE =>
    simp only [applyEvent]
    split
    · exact ⟨le_min (by simp [total]) (by omega), min_le_left _ _⟩
    · exact ⟨h1, h2⟩
  | backE =>
    simp only [applyEvent]
    split
    · exact ⟨le_max_left _ _, max_le (by norm_num) (by omega)⟩
    · exact ⟨h1, h2⟩
  | updateE d => exact ⟨h1, h2⟩

lemma runEvents_stepInv (es : List WizardEvent) (s : WizardState) (h : stepInv s) :
    stepInv (runEvents s es) := by
  induction es generalizing s with
  | nil => exact h
  | cons e es ih => exact ih _ (applyEvent_stepInv s e h)

lemma runEvents_append (s : WizardState) (es : List WizardEvent) (e : WizardEvent) :
    runEvents s (es ++ [e]) = applyEvent (runEvents s es) e := by
  induction es generalizing s with
  | nil => rfl
  | cons f fs ih => exact ih (applyEvent s f)

/-- A step-1 data record with every required field filled and an
8-character-or-longer password. -/
def goodData : ApplicationData :=
  { first_name := "Abebe", last_name := "Bekele", username := "abebe",
    email := "abebe@example.com", phone_number := "0911000000",
    password := "longpass99", age := "25", country := "", desiredJob := "",
    desiredStartDate := "" }

/-- Claim C1: starting at step 1, the wizard is at step 2 only if the trace
contains a forward transition taken from step 1 at a moment where all of
first_name, last_name, username, email, phone_number and age were non-empty
and the password had length at least 8; when that validation fails the next
button is disabled and the forward transition is a no-op. -/
theorem wizard_step2_requires_step1_validation :
    (∀ es : List WizardEvent, (runEvents initWizard es).step = 2 →
       ∃ es₁ es₂, es = es₁ ++ WizardEvent.nextE :: es₂ ∧
         (runEvents initWizard es₁).step = 1 ∧
         step1Complete (runEvents initWizard es₁).data) ∧
    (∀ s : WizardState, s.step = 1 → validStep 1 s.data = false →
       nextDisabled s.step s.data false = true ∧
       applyEvent s WizardEvent.nextE = s) := by
  constructor
  · intro es
    induction es using List.reverseRecOn with
    | nil =>
      intro h
      simp [runEvents, initWizard] at h
    | append_singleton es e ih =>
      intro h
      rw [runEvents_append] at h
      have hinv : stepInv (runEvents initWizard es) :=
        runEvents_stepInv es initWizard ⟨by decide, by decide⟩
      cases e with
      | updateE d =>
        have hs : (runEvents initWizard es).step = 2 := by
          simpa [applyEvent] using h
        obtain ⟨es₁, es₂, hdec, h1, h2⟩ := ih hs
        exact ⟨es₁, es₂ ++ [WizardEvent.updateE d], by rw [hdec]; simp, h1, h2⟩
      | backE =>
        by_cases hb : 1 < (runEvents initWizard es).step
        · exfalso
          simp only [applyEvent, if_pos hb] at h
          have h2 : (runEvents initWizard es).step ≤ 2 := hinv.2
          rw [back, Nat.max_def] at h
          split at h <;> omega
        · simp only [applyEvent, if_neg hb] at h
          obtain ⟨es₁, es₂, hdec, h1, h2⟩ := ih h
          exact ⟨es₁, es₂ ++ [WizardEvent.backE], by rw [hdec]; simp, h1, h2⟩
      | nextE =>
        by_cases hg : (runEvents initWizard es).step < total ∧
            validStep (runEvents initWizard es).step (runEvents initWizard es).data = true
        · have hstep : (runEvents initWizard es).step = 1 := by
            have hlt := hg.1
            have h1 := hinv.1
            simp only [total] at hlt
            omega
          refine ⟨es, [], rfl, hstep, ?_⟩
          have hv := hg.2
          rw [hstep] at hv
          exact (validStep_one_iff _).mp hv
        · simp only [applyEvent, if_neg hg] at h
          obtain ⟨es₁, es₂, hdec, h1, h2⟩ := ih h
          exact ⟨es₁, es₂ ++ [WizardEvent.nextE], by rw [hdec]; simp, h1, h2⟩
  · intro s hs hv
    rw [hs]
    constructor
    · simp [nextDisabled, hs, hv]
    · have : ¬ (s.step < total ∧ validStep s.step s.data = true) := by
        rw [hs, hv]
        simp
      simp [applyEvent, this]

/-- Witness for C1 at concrete inputs: filling the form and pressing next
reaches step 2 through a validated transition, and from the empty initial
data the forward transition is disabled and does nothing. -/
theorem wizard_step2_requires_step1_validation_witness :
    (∃ es₁ es₂,
      ([WizardEvent.updateE goodData, WizardEvent.nextE] : List WizardEvent) =
        es₁ ++ WizardEvent.nextE :: es₂ ∧
      (runEvents initWizard es₁).step = 1 ∧
      step1Complete (runEvents initWizard es₁).data) ∧
    (nextDisabled (1 : Nat) initialData false = true ∧
      applyEvent { step := 1, data := initialData } WizardEvent.nextE =
        { step := 1, data := initialData }) :=
  ⟨wizard_step2_requires_step1_validation.1
      [WizardEvent.updateE goodData, WizardEvent.nextE] (by decide),
   wizard_step2_requires_step1_validation.2
      { step := 1, data := initialData } rfl (by decide)⟩

/-- Claim C9: under every sequence of next and back interactions from the
initial state the step stays between 1 and 2; next clamps at total = 2 and
back clamps at 1. -/
theorem wizard_step_range_invariant :
    (∀ es : List WizardEvent,
       1 ≤ (runEvents initWizard es).step ∧ (runEvents initWizard es).step ≤ 2) ∧
    (∀ s : Nat, next s ≤ total ∧ 1 ≤ back s) := by
  constructor
  · intro es
    exact runEvents_stepInv es initWizard ⟨by decide, by decide⟩
  · intro s
    exact ⟨min_le_left _ _, le_max_left _ _⟩

/-- Counterexample to claim C7 as stated: at step 2 (greater than 1) the
back button is disabled while a submission is in flight (isLoading), so the
backward transition is not "never disabled". -/
theorem back_disabled_during_submit_counterexample :
    1 < 2 ∧ backDisabled 2 true = true := by decide

/-- Claim C7 (amended): in every wizard state with step greater than 1 and
no submission in flight, the back button is enabled with no validation of
the form data, and taking the backward transition decrements the step by
one. -/
theorem back_transition_amended :
    ∀ (step : Nat) (d : ApplicationData), 1 < step →
      backDisabled step false = false ∧
      back step = step - 1 ∧
      applyEvent { step := step, data := d } WizardEvent.backE =
        { step := step - 1, data := d } := by
  intro step d h
  have hb : back step = step - 1 := max_eq_right (by omega)
  refine ⟨?_, hb, ?_⟩
  · simp only [backDisabled, Bool.or_false, beq_eq_false_iff_ne]
    omega
  · simp [applyEvent, h, hb]

/-- Witness for the amended C7 at step 2. -/
theorem back_transition_amended_witness :
    backDisabled 2 false = false ∧ back 2 = 2 - 1 ∧
      applyEvent { step := 2, data := initialData } WizardEvent.backE =
        { step := 2 - 1, data := initialData } :=
  back_transition_amended 2 initialData (by decide)

/-! ### Sites directory view (SitesPage.tsx) -/

/-- handleCountryChange: sets the selected country, and writes the URL
query parameter `country` when the value is truthy and not "all", else
clears the query string. Returned as (selectedCountry, country param). -/
def handleCountryChange (country : String) : String × Option String :=
  (country, if country ≠ "" ∧ country ≠ "all" then some country else none)

/-- The popular-country card onClick: sets the selected country and
navigates to /sites?country=..., which always carries the parameter. -/
def popularCountryClick (country : String) : String × Option String :=
  (country, some country)

/-- Counterexample to claim C2 as stated: selecting the empty string
leaves the parameter absent although the selection is not "all", so the
parameter is not absent exactly when "all" is selected. -/
theorem country_param_claim_counterexample :
    (handleCountryChange "").2 = none ∧ ("" : String) ≠ "all" := by decide

/-- Claim C2 (amended): after the selection-change handler the selected
country equals the input; the URL parameter equals the selection when it is
neither "all" nor empty, and is absent exactly when the selection is "all"
or empty. A popular-country click always writes the parameter. -/
theorem country_param_selection_amended :
    ∀ c : String,
      (handleCountryChange c).1 = c ∧
      ((handleCountryChange c).2 = none ↔ (c = "all" ∨ c = "")) ∧
      (c ≠ "all" → c ≠ "" → (handleCountryChange c).2 = some c) ∧
      (popularCountryClick c).1 = c ∧
      (popularCountryClick c).2 = some c := by
  intro c
  refine ⟨rfl, ?_, ?_, rfl, rfl⟩
  · by_cases h1 : c = ""
    · simp [handleCountryChange, h1]
    · by_cases h2 : c = "all"
      · simp [handleCountryChange, h1, h2]
      · simp [handleCountryChange, h1, h2]
  · intro h2 h1
    simp [handleCountryChange, h1, h2]

/-- Witness for the amended C2 at a real country name. -/
theorem country_param_selection_amended_witness :
    (handleCountryChange "Germany").2 = some "Germany" :=
  (country_param_selection_amended "Germany").2.2.1 (by decide) (by decide)

/-- Substring test on character lists, the semantics of the JS
String.prototype.includes call used by the search filter: the needle is a
prefix of some suffix of the haystack. -/
def containsSub : List Char → List Char → Bool
  | [], need => need.isPrefixOf []
  | a :: t, need => need.isPrefixOf (a :: t) || containsSub t need

lemma containsSub_iff_infix (hay need : List Char) :
    containsSub hay need = true ↔ need <:+: hay := by
  induction hay with
  | nil => simp [containsSub]
  | cons a t ih => simp [containsSub, ih, List.infix_cons_iff]

/-- filteredSites: an empty query keeps every site; otherwise a site is
kept when the lowercased query occurs in the lowercased site_name, country
or site_url. -/
def filteredSites (searchQuery : String) (sites : List JobSite) : List JobSite :=
  sites.filter fun site =>
    if searchQuery = "" then true
    else
      containsSub site.site_name.toLower.data searchQuery.toLower.data ||
      containsSub site.country.toLower.data searchQuery.toLower.data ||
      containsSub site.site_url.toLower.data searchQuery.toLower.data

/-- Claim C4: the client-side filter keeps exactly the loaded sites whose
site_name, country or site_url contains the query as a case-insensitive
substring, and the empty query returns the loaded list unchanged. -/
theorem search_filter_characterization :
    (∀ (q : String) (sites : List JobSite) (s : JobSite),
        s ∈ filteredSites q sites ↔
          s ∈ sites ∧ (q = "" ∨
            q.toLower.data <:+: s.site_name.toLower.data ∨
            q.toLower.data <:+: s.country.toLower.data ∨
            q.toLower.data <:+: s.site_url.toLower.data)) ∧
    (∀ sites : List JobSite, filteredSites "" sites = sites) := by
  constructor
  · intro q sites s
    simp only [filteredSites, List.mem_filter]
    by_cases hq : q = ""
    · subst hq
      simp
    · simp [hq, containsSub_iff_infix, or_assoc]
  · intro sites
    simp [filteredSites]

/-! ### Job-sites response parsing (SitesPage.tsx and the dashboard) -/

/-- The value found at a response field such as res.results or res.data:
absent (undefined), an array of job sites, or some other value carrying
only its JS truthiness. -/
inductive RespField where
  | absent
  | arrF (xs : List JobSite)
  | otherF (truthy : Bool)
deriving DecidableEq

/-- JS truthiness of a field value; every array, even the empty one, is
truthy, and undefined is falsy. -/
def RespField.truthy : RespField → Bool
  | RespField.absent => false
  | RespField.arrF _ => true
  | RespField.otherF b => b

/-- Array.isArray of a field value. -/
def RespField.isArr : RespField → Bool
  | RespField.arrF _ => true
  | _ => false

/-- The array carried by a field value. The React state is typed
JobSite[], so a truthy non-array is collapsed to the empty list here; no
claim depends on that corner. -/
def RespField.getArr : RespField → List JobSite
  | RespField.arrF xs => xs
  | _ => []

/-- A job-sites response: either a bare JSON array or an object with ok,
status, results and data fields. On a bare array the object fields are
undefined, hence falsy. -/
structure RespObj where
  ok : Bool
  status : Nat
  results : RespField
  dataField : RespField
deriving DecidableEq

inductive JobSitesResp where
  | bareArr (xs : List JobSite)
  | objResp (o : RespObj)
deriving DecidableEq

/-- The response parsing shared by loadSitesForCountry and loadAllSites:
res.results if truthy and an array, else res.data if truthy and an array,
else res itself if it is an array, else the empty list (the final res.ok
branch also leaves the empty list). -/
def parseJobSites (res : JobSitesResp) : List JobSite :=
  match res with
  | JobSitesResp.bareArr xs => xs
  | JobSitesResp.objResp o =>
      if o.results.truthy && o.results.isArr then o.results.getArr
      else if o.dataField.truthy && o.dataField.isArr then o.dataField.getArr
      else []

/-- JS short-circuit a || b on field values. -/
def jsOrField (a b : RespField) : RespField :=
  if a.truthy then a else b

/-- The dashboard view-all handler parse: guarded by res.ok (falsy on a
bare array), then res.results || res.data || (Array.isArray(res) ? res :
[]); Array.isArray(res) is false for an object. none means setAllSites is
never called. -/
def dashboardViewAllParse (res : JobSitesResp) : Option RespField :=
  match res with
  | JobSitesResp.bareArr _ => none
  | JobSitesResp.objResp o =>
      if o.ok then
        some (jsOrField o.results (jsOrField o.dataField (RespField.arrF [])))
      else none

/-- A sample job site for concrete evaluations. -/
def sampleSite : JobSite :=
  { id := 1, country := "Germany", site_name := "StepStone",
    site_url := "https://www.stepstone.de" }

/-- Counterexample to claim C6 as stated: on a bare-array response the
sites view yields the array, but the dashboard view-all handler never
stores it because its res.ok guard is falsy on an array, so the two views
do not share the claimed parser. -/
theorem bare_array_dashboard_counterexample :
    parseJobSites (JobSitesResp.bareArr [sampleSite]) = [sampleSite] ∧
    dashboardViewAllParse (JobSitesResp.bareArr [sampleSite]) = none := by decide

/-- Claim C6 (amended): the sites view parser yields results when that
field is an array, else data when that field is an array, else the bare
array, else the empty list. The dashboard view-all handler instead first
requires a truthy ok field — so it ignores a bare array — and then takes
results if truthy, else data if truthy, else the empty array, without
checking that the chosen field is an array. -/
theorem response_parsing_amended :
    (∀ xs : List JobSite, parseJobSites (JobSitesResp.bareArr xs) = xs) ∧
    (∀ (o : RespObj) (xs : List JobSite), o.results = RespField.arrF xs →
        parseJobSites (JobSitesResp.objResp o) = xs) ∧
    (∀ (o : RespObj) (xs : List JobSite), o.results.isArr = false →
        o.dataField = RespField.arrF xs →
        parseJobSites (JobSitesResp.objResp o) = xs) ∧
    (∀ o : RespObj, o.results.isArr = false → o.dataField.isArr = false →
        parseJobSites (JobSitesResp.objResp o) = []) ∧
    (∀ xs : List JobSite, dashboardViewAllParse (JobSitesResp.bareArr xs) = none) ∧
    (∀ o : RespObj, o.ok = false →
        dashboardViewAllParse (JobSitesResp.objResp o) = none) ∧
    (∀ o : RespObj, o.ok = true → o.results.truthy = true →
        dashboardViewAllParse (JobSitesResp.objResp o) = some o.results) ∧
    (∀ o : RespObj, o.ok = true → o.results.truthy = false →
        o.dataField.truthy = true →
        dashboardViewAllParse (JobSitesResp.objResp o) = some o.dataField) ∧
    (∀ o : RespObj, o.ok = true → o.results.truthy = false →
        o.dataField.truthy = false →
        dashboardViewAllParse (JobSitesResp.objResp o) =
          some (RespField.arrF [])) := by
  refine ⟨?_, ?_, ?_, ?_, ?_, ?_, ?_, ?_, ?_⟩
  · intro xs
    rfl
  · intro o xs h
    simp [parseJobSites, h, RespField.truthy, RespField.isArr, RespField.getArr]
  · intro o xs h1 h2
    cases hres : o.results with
    | absent =>
      simp [parseJobSites, hres, h2, RespField.truthy, RespField.isArr,
        RespField.getArr]
    | arrF ys =>
      rw [hres] at h1
      simp [RespField.isArr] at h1
    | otherF b =>
      simp [parseJobSites, hres, h2, RespField.truthy, RespField.isArr,
        RespField.getArr]
  · intro o h1 h2
    simp [parseJobSites, h1, h2]
  · intro xs
    rfl
  · intro o h
    simp [dashboardViewAllParse, h]
  · intro o h1 h2
    simp [dashboardViewAllParse, h1, jsOrField, h2]
  · intro o h1 h2 h3
    simp [dashboardViewAllParse, h1, jsOrField, h2, h3]
  · intro o h1 h2 h3
    simp [dashboardViewAllParse, h1, jsOrField, h2, h3]

/-- A sample object response whose results field carries one site. -/
def sampleObjResp : RespObj :=
  { ok := true, status := 200, results := RespField.arrF [sampleSite],
    dataField := RespField.absent }

/-- Witness for the amended C6: an object response with an array results
field parses to that array in the sites view. -/
theorem response_parsing_amended_witness :
    parseJobSites (JobSitesResp.objResp sampleObjResp) = [sampleSite] :=
  response_parsing_amended.2.1 sampleObjResp [sampleSite] rfl

/-! ### Contact form (ContactPage.tsx) -/

/-- The four contact form fields. -/
structure ContactFormData where
  name : String
  email : String
  subject : String
  message : String
deriving DecidableEq

/-- The contact view state. -/
structure ContactState where
  formData : ContactFormData
  loading : Bool
  success : Bool
  error : Option String
deriving DecidableEq

/-- The outcome of the POST to /api/contacts/: an HTTP response with its
status and the message field of its JSON body, or a thrown network
error. -/
inductive ContactResp where
  | httpResp (status : Nat) (message : Option String)
  | networkError
deriving DecidableEq

/-- Response.ok of the Fetch API: status in the inclusive range 200 to
299. -/
def respOk (status : Nat) : Bool := decide (200 ≤ status ∧ status < 300)

/-- JS a || b on an optional string against a default: the empty string is
falsy, so it also falls through to the default. -/
def jsOrStr (a : Option String) (b : String) : String :=
  match a with
  | some s => if s = "" then b else s
  | none => b

/-- One complete run of the contact handleSubmit: loading toggles on and
back off; success resets the four fields, shows the banner and schedules
its dismissal (returned as the timer delay in milliseconds); a non-ok
response or a network error sets the error banner and leaves the fields
untouched. -/
def contactHandleSubmit (st : ContactState) (r : ContactResp) :
    ContactState × Option Nat :=
  match r with
  | ContactResp.httpResp status msg =>
      if respOk status then
        ({ formData := { name := "", email := "", subject := "", message := "" },
           loading := false, success := true, error := none }, some 5000)
      else
        ({ st with
            loading := false,
            success := false,
            error := some (jsOrStr msg "Failed to send message. Please try again.") },
         none)
  | ContactResp.networkError =>
      ({ st with
          loading := false,
          success := false,
          error := some "Network error. Please check your connection and try again." },
       none)

/-- The scheduled timer action: setSuccess(false). -/
def dismissSuccess (st : ContactState) : ContactState :=
  { st with success := false }

/-- Claim C5: a submission with the required fields populated and a 2xx
response resets all four fields to empty, sets the success banner, and
schedules its dismissal after exactly 5000 ms; running the scheduled action
hides the banner. -/
theorem contact_success_resets_and_times_banner :
    ∀ (st : ContactState) (status : Nat) (msg : Option String),
      st.formData.name ≠ "" → st.formData.email ≠ "" →
      st.formData.message ≠ "" →
      200 ≤ status → status < 300 →
      ((contactHandleSubmit st (ContactResp.httpResp status msg)).1.formData =
          { name := "", email := "", subject := "", message := "" } ∧
       (contactHandleSubmit st (ContactResp.httpResp status msg)).1.success = true ∧
       (contactHandleSubmit st (ContactResp.httpResp status msg)).2 = some 5000 ∧
       (dismissSuccess
          (contactHandleSubmit st (ContactResp.httpResp status msg)).1).success =
         false) := by
  intro st status msg hn he hm h1 h2
  have hok : respOk status = true := by
    simp only [respOk, decide_eq_true_eq]
    exact ⟨h1, h2⟩
  simp [contactHandleSubmit, hok, dismissSuccess]

/-- A contact state with the required fields populated. -/
def contactFilled : ContactState :=
  { formData := { name := "Sara", email := "sara@example.com",
                  subject := "Visa", message := "Need information" },
    loading := false, success := true, error := none }

/-- Witness for C5: a populated form and a 200 response. -/
theorem contact_success_resets_and_times_banner_witness :
    (contactHandleSubmit contactFilled (ContactResp.httpResp 200 none)).1.formData =
        { name := "", email := "", subject := "", message := "" } ∧
    (contactHandleSubmit contactFilled (ContactResp.httpResp 200 none)).1.success = true ∧
    (contactHandleSubmit contactFilled (ContactResp.httpResp 200 none)).2 = some 5000 ∧
    (dismissSuccess
       (contactHandleSubmit contactFilled (ContactResp.httpResp 200 none)).1).success =
      false :=
  contact_success_resets_and_times_banner contactFilled 200 none (by decide)
    (by decide) (by decide) (by decide) (by decide)

/-- Counterexample to claim C10 as stated: a failing submission does not
set only the error message — it also clears the success flag, as shown
from a state where the success banner was still visible. -/
theorem contact_failure_touches_success_flag :
    contactFilled.success = true ∧
    (contactHandleSubmit contactFilled (ContactResp.httpResp 500 none)).1.success =
      false := by decide

/-- Claim C10 (amended): a failing submission (non-2xx response or network
error) leaves the four form fields unchanged, sets the error message
(server-provided or generic), clears the success flag, ends with loading
false, and schedules no timer — so the typed input is preserved. -/
theorem contact_failure_preserves_fields_amended :
    (∀ (st : ContactState) (status : Nat) (msg : Option String),
       status < 200 ∨ 300 ≤ status →
       (contactHandleSubmit st (ContactResp.httpResp status msg)).1.formData =
           st.formData ∧
       (contactHandleSubmit st (ContactResp.httpResp status msg)).1.error =
           some (jsOrStr msg "Failed to send message. Please try again.") ∧
       (contactHandleSubmit st (ContactResp.httpResp status msg)).1.success = false ∧
       (contactHandleSubmit st (ContactResp.httpResp status msg)).1.loading = false ∧
       (contactHandleSubmit st (ContactResp.httpResp status msg)).2 = none) ∧
    (∀ st : ContactState,
       (contactHandleSubmit st ContactResp.networkError).1.formData = st.formData ∧
       (contactHandleSubmit st ContactResp.networkError).1.error =
           some "Network error. Please check your connection and try again." ∧
       (contactHandleSubmit st ContactResp.networkError).1.success = false ∧
       (contactHandleSubmit st ContactResp.networkError).1.loading = false ∧
       (contactHandleSubmit st ContactResp.networkError).2 = none) := by
  constructor
  · intro st status msg hbad
    have hok : respOk status = false := by
      simp only [respOk, decide_eq_false_iff_not]
      omega
    simp [contactHandleSubmit, hok]
  · intro st
    simp [contactHandleSubmit]

/-- Witness for the amended C10: a 500 response preserves the typed
fields. -/
theorem contact_failure_preserves_fields_amended_witness :
    (contactHandleSubmit contactFilled (ContactResp.httpResp 500 none)).1.formData =
        contactFilled.formData ∧
    (contactHandleSubmit contactFilled (ContactResp.httpResp 500 none)).1.error =
        some (jsOrStr none "Failed to send message. Please try again.") ∧
    (contactHandleSubmit contactFilled (ContactResp.httpResp 500 none)).1.success =
        false ∧
    (contactHandleSubmit contactFilled (ContactResp.httpResp 500 none)).1.loading =
        false ∧
    (contactHandleSubmit contactFilled (ContactResp.httpResp 500 none)).2 = none :=
  contact_failure_preserves_fields_amended.1 contactFilled 500 none (by omega)

/-! ### Wizard submission failure (MultiStepForm.tsx onSubmit) -/

/-- The fields of the registration response the failure branch reads. -/
structure RegisterResp where
  ok : Bool
  status : Nat
  error : Option String
  username : Option (List String)
  email : Option (List String)
deriving DecidableEq

/-- res.username?.[0]: the first element when the field is present and
non-empty, undefined otherwise. -/
def jsHead (o : Option (List String)) : Option String :=
  match o with
  | some l => l.head?
  | none => none

/-- The generic failure message of the wizard submit. -/
def genericSubmitError : String :=
  "Failed to submit application. Please check your details and try again."

/-- The error message picked on submission failure:
res.error || res.username?.[0] || res.email?.[0] || generic. -/
def submitFailureMessage (r : RegisterResp) : String :=
  jsOrStr r.error
    (jsOrStr (jsHead r.username) (jsOrStr (jsHead r.email) genericSubmitError))

/-- The error state set by onSubmit: none on success (res.ok or status
201), otherwise the picked failure message. -/
def onSubmitError (r : RegisterResp) : Option String :=
  if r.ok || r.status == 201 then none else some (submitFailureMessage r)

/-- Claim C8: on every unsuccessful submission (not ok and not status 201)
the displayed error is the first available (present and non-empty)
server-provided error among res.error, the first username field error and
the first email field error, in that order, and the generic failure
message when none is available. -/
theorem submit_error_priority :
    ∀ r : RegisterResp, r.ok = false → r.status ≠ 201 →
      ((∀ e, r.error = some e → e ≠ "" → onSubmitError r = some e) ∧
       ((r.error = none ∨ r.error = some "") →
          ∀ u, jsHead r.username = some u → u ≠ "" → onSubmitError r = some u) ∧
       ((r.error = none ∨ r.error = some "") →
          (jsHead r.username = none ∨ jsHead r.username = some "") →
          ∀ e, jsHead r.email = some e → e ≠ "" → onSubmitError r = some e) ∧
       ((r.error = none ∨ r.error = some "") →
          (jsHead r.username = none ∨ jsHead r.username = some "") →
          (jsHead r.email = none ∨ jsHead r.email = some "") →
          onSubmitError r = some genericSubmitError)) := by
  intro r hok hst
  have hfail : onSubmitError r = some (submitFailureMessage r) := by
    have hs : (r.status == 201) = false := by
      simp [hst]
    simp [onSubmitError, hok, hs]
  refine ⟨?_, ?_, ?_, ?_⟩
  · intro e he hne
    rw [hfail]
    simp [submitFailureMessage, he, jsOrStr, hne]
  · intro herr u hu hne
    rw [hfail]
    rcases herr with h | h <;>
      simp [submitFailureMessage, h, hu, jsOrStr, hne]
  · intro herr huser e he hne
    rw [hfail]
    rcases herr with h | h <;> rcases huser with h2 | h2 <;>
      simp [submitFailureMessage, h, h2, he, jsOrStr, hne]
  · intro herr huser hemail
    rw [hfail]
    rcases herr with h | h <;> rcases huser with h2 | h2 <;>
      rcases hemail with h3 | h3 <;>
      simp [submitFailureMessage, h, h2, h3, jsOrStr]

/-- A failing registration response with a username field error. -/
def sampleRegisterResp : RegisterResp :=
  { ok := false, status := 400, error := none,
    username := some ["username already taken"], email := none }

/-- Witness for C8: a 400 response with only a username error surfaces
that error. -/
theorem submit_error_priority_witness :
    onSubmitError sampleRegisterResp = some "username already taken" :=
  (submit_error_priority sampleRegisterResp rfl (by decide)).2.1 (Or.inl rfl)
    "username already taken" rfl (by decide)

/-! ### Dashboard view (the view all countries toggle) -/

/-- The dashboard view state relevant to the toggle. -/
structure DashboardState where
  country : String
  sites : List JobSite
  allSites : List JobSite
  showAllCountries : Bool
deriving DecidableEq

/-- Where the handler leaves the user: still on the dashboard, or
navigated to /sites?country=... by handleViewCountry. -/
inductive DashboardEffect where
  | stayOnDashboard
  | navigateToSites (country : String)
deriving DecidableEq

/-- The server responses the handler may consume: fetchJobSites() and a
re-fetch of the user dashboard (its ok flag and job_sites field;
job_sites || [] makes an absent field the empty list). -/
structure DashboardServer where
  allSitesResp : JobSitesResp
  dashboardOk : Bool
  dashboardJobSites : Option (List JobSite)
deriving DecidableEq

/-- handleViewCountry: navigate to the sites page for the country. -/
def handleViewCountry (countryName : String) : DashboardEffect :=
  DashboardEffect.navigateToSites countryName

/-- One click of the view-all-countries toggle (completed, non-throwing
fetches). When showAllCountries is set it is cleared and, if the user
country is truthy, handleViewCountry navigates away; with no country the
dashboard is re-fetched. Otherwise fetchJobSites is parsed behind the
res.ok guard and showAllCountries is set. -/
def handleViewAllCountries (st : DashboardState) (srv : DashboardServer) :
    DashboardState × DashboardEffect :=
  if st.showAllCountries then
    if st.country ≠ "" then
      ({ st with showAllCountries := false }, handleViewCountry st.country)
    else
      (if srv.dashboardOk then
        { st with
            showAllCountries := false,
            sites := srv.dashboardJobSites.getD [] }
       else { st with showAllCountries := false },
       DashboardEffect.stayOnDashboard)
  else
    (match dashboardViewAllParse srv.allSitesResp with
     | some f => { st with allSites := f.getArr, showAllCountries := true }
     | none => { st with showAllCountries := true },
     DashboardEffect.stayOnDashboard)

/-- The sites the dashboard renders: allSites in the all-countries view,
else the curated set. -/
def displaySites (st : DashboardState) : List JobSite :=
  if st.showAllCountries then st.allSites else st.sites

/-- Two clicks of the toggle in succession; if the first click navigated
away the second cannot happen on the dashboard. -/
def applyTwice (st : DashboardState) (srv₁ srv₂ : DashboardServer) :
    DashboardState × DashboardEffect :=
  match handleViewAllCountries st srv₁ with
  | (st₁, DashboardEffect.stayOnDashboard) => handleViewAllCountries st₁ srv₂
  | (st₁, DashboardEffect.navigateToSites c) =>
      (st₁, DashboardEffect.navigateToSites c)

/-- A curated site list for a user whose country is Germany. -/
def curatedSample : List JobSite :=
  [{ id := 2, country := "Germany", site_name := "Indeed DE",
     site_url := "https://de.indeed.com" }]

/-- A dashboard in its initial curated view. -/
def dashboardSample : DashboardState :=
  { country := "Germany", sites := curatedSample, allSites := [],
    showAllCountries := false }

/-- A well-behaved server for both toggle clicks. -/
def serverSample : DashboardServer :=
  { allSitesResp := JobSitesResp.objResp sampleObjResp,
    dashboardOk := true, dashboardJobSites := some curatedSample }

/-- Claim C3 evaluated at the failing input: for a user with a non-empty
country, toggling twice restores the curated site list and the flag, but
the second click leaves the dashboard page entirely, navigating to
/sites?country=Germany instead of staying, contradicting the claimed
return to the original dashboard view (the handler comment says it resets
to the user country sites). -/
theorem view_all_toggle_twice_navigates_away :
    (applyTwice dashboardSample serverSample serverSample).2 =
      DashboardEffect.navigateToSites "Germany" ∧
    (applyTwice dashboardSample serverSample serverSample).1.showAllCountries =
      false ∧
    displaySites (applyTwice dashboardSample serverSample serverSample).1 =
      curatedSample ∧
    DashboardEffect.navigateToSites "Germany" ≠
      DashboardEffect.stayOnDashboard := by decide

end JobsAbroad
